import Mathlib

/-! # Checkout session gateway (server.js)

A shallow embedding of the route handlers of `server.js`:

* `GET /check-env`       (`checkEnv`, lines 43-54, with the global error handler, lines 163-166),
* `GET /test-midtrans`   (`testMidtrans`, lines 57-99),
* `POST /get-snap-token` (`getSnapToken`, lines 102-144).

JavaScript values are finite trees (`JsVal`).  The payment provider is an arbitrary function from
the submitted payload to either a resolved value or a rejection value; a run of a handler records
the payloads handed to `snap.createTransaction` and how the handler ended: a response passed to
`res.json`, or an exception that escaped the handler.
-/

namespace Server

/-! ## JavaScript values -/

/-- JavaScript values as the handlers see them.  Numbers are the integers plus `NaN`: the handlers
only ever test a number for truthiness, and every other double is nonzero, hence behaves like a
nonzero integer.  Objects are association lists in insertion order.  Values are finite trees of
plain data, so reading a property runs no getter and `res.json` can serialise every value. -/
inductive JsVal where
  | undefined : JsVal
  | null : JsVal
  | bool (b : Bool) : JsVal
  | num (n : Int) : JsVal
  | nan : JsVal
  | str (s : String) : JsVal
  | arr (items : List JsVal) : JsVal
  | obj (props : List (String × JsVal)) : JsVal

namespace JsVal

mutual
/-- Decides equality of two values. -/
def decEq : (a b : JsVal) → Decidable (a = b)
  | undefined, undefined => isTrue rfl
  | null, null => isTrue rfl
  | nan, nan => isTrue rfl
  | bool a, bool b =>
    if h : a = b then isTrue (by rw [h]) else isFalse (by intro e; cases e; exact h rfl)
  | num a, num b =>
    if h : a = b then isTrue (by rw [h]) else isFalse (by intro e; cases e; exact h rfl)
  | str a, str b =>
    if h : a = b then isTrue (by rw [h]) else isFalse (by intro e; cases e; exact h rfl)
  | arr a, arr b =>
    match decEqItems a b with
    | isTrue h => isTrue (by rw [h])
    | isFalse h => isFalse (by intro e; cases e; exact h rfl)
  | obj a, obj b =>
    match decEqProps a b with
    | isTrue h => isTrue (by rw [h])
    | isFalse h => isFalse (by intro e; cases e; exact h rfl)
  | undefined, null => isFalse (by intro e; cases e)
  | undefined, bool _ => isFalse (by intro e; cases e)
  | undefined, num _ => isFalse (by intro e; cases e)
  | undefined, nan => isFalse (by intro e; cases e)
  | undefined, str _ => isFalse (by intro e; cases e)
  | undefined, arr _ => isFalse (by intro e; cases e)
  | undefined, obj _ => isFalse (by intro e; cases e)
  | null, undefined => isFalse (by intro e; cases e)
  | null, bool _ => isFalse (by intro e; cases e)
  | null, num _ => isFalse (by intro e; cases e)
  | null, nan => isFalse (by intro e; cases e)
  | null, str _ => isFalse (by intro e; cases e)
  | null, arr _ => isFalse (by intro e; cases e)
  | null, obj _ => isFalse (by intro e; cases e)
  | bool _, undefined => isFalse (by intro e; cases e)
  | bool _, null => isFalse (by intro e; cases e)
  | bool _, num _ => isFalse (by intro e; cases e)
  | bool _, nan => isFalse (by intro e; cases e)
  | bool _, str _ => isFalse (by intro e; cases e)
  | bool _, arr _ => isFalse (by intro e; cases e)
  | bool _, obj _ => isFalse (by intro e; cases e)
  | num _, undefined => isFalse (by intro e; cases e)
  | num _, null => isFalse (by intro e; cases e)
  | num _, bool _ => isFalse (by intro e; cases e)
  | num _, nan => isFalse (by intro e; cases e)
  | num _, str _ => isFalse (by intro e; cases e)
  | num _, arr _ => isFalse (by intro e; cases e)
  | num _, obj _ => isFalse (by intro e; cases e)
  | nan, undefined => isFalse (by intro e; cases e)
  | nan, null => isFalse (by intro e; cases e)
  | nan, bool _ => isFalse (by intro e; cases e)
  | nan, num _ => isFalse (by intro e; cases e)
  | nan, str _ => isFalse (by intro e; cases e)
  | nan, arr _ => isFalse (by intro e; cases e)
  | nan, obj _ => isFalse (by intro e; cases e)
  | str _, undefined => isFalse (by intro e; cases e)
  | str _, null => isFalse (by intro e; cases e)
  | str _, bool _ => isFalse (by intro e; cases e)
  | str _, num _ => isFalse (by intro e; cases e)
  | str _, nan => isFalse (by intro e; cases e)
  | str _, arr _ => isFalse (by intro e; cases e)
  | str _, obj _ => isFalse (by intro e; cases e)
  | arr _, undefined => isFalse (by intro e; cases e)
  | arr _, null => isFalse (by intro e; cases e)
  | arr _, bool _ => isFalse (by intro e; cases e)
  | arr _, num _ => isFalse (by intro e; cases e)
  | arr _, nan => isFalse (by intro e; cases e)
  | arr _, str _ => isFalse (by intro e; cases e)
  | arr _, obj _ => isFalse (by intro e; cases e)
  | obj _, undefined => isFalse (by intro e; cases e)
  | obj _, null => isFalse (by intro e; cases e)
  | obj _, bool _ => isFalse (by intro e; cases e)
  | obj _, num _ => isFalse (by intro e; cases e)
  | obj _, nan => isFalse (by intro e; cases e)
  | obj _, str _ => isFalse (by intro e; cases e)
  | obj _, arr _ => isFalse (by intro e; cases e)
/-- Decides equality of two lists of values. -/
def decEqItems : (a b : List JsVal) → Decidable (a = b)
  | [], [] => isTrue rfl
  | [], _ :: _ => isFalse (by intro e; cases e)
  | _ :: _, [] => isFalse (by intro e; cases e)
  | x :: xs, y :: ys =>
    match decEq x y, decEqItems xs ys with
    | isTrue h, isTrue t => isTrue (by rw [h, t])
    | isFalse h, _ => isFalse (by intro e; cases e; exact h rfl)
    | _, isFalse t => isFalse (by intro e; cases e; exact t rfl)
/-- Decides equality of two property lists. -/
def decEqProps : (a b : List (String × JsVal)) → Decidable (a = b)
  | [], [] => isTrue rfl
  | [], _ :: _ => isFalse (by intro e; cases e)
  | _ :: _, [] => isFalse (by intro e; cases e)
  | (k, x) :: xs, (l, y) :: ys =>
    if hk : k = l then
      match decEq x y, decEqProps xs ys with
      | isTrue h, isTrue t => isTrue (by rw [hk, h, t])
      | isFalse h, _ => isFalse (by intro e; cases e; exact h rfl)
      | _, isFalse t => isFalse (by intro e; cases e; exact t rfl)
    else isFalse (by intro e; cases e; exact hk rfl)
end

instance : DecidableEq JsVal := decEq

/-- ToBoolean: the falsy values are `undefined`, `null`, `false`, `0`, `NaN` and `""`. -/
def truthy : JsVal → Bool
  | undefined => false
  | null => false
  | bool b => b
  | num n => n != 0
  | nan => false
  | str s => s != ""
  | arr _ => true
  | obj _ => true

/-- Holds of `undefined` and `null`, the two values on which property access throws. -/
def isNullish : JsVal → Bool
  | undefined => true
  | null => true
  | _ => false

/-- The operator `a || b` on already evaluated operands. -/
def or (a b : JsVal) : JsVal := if a.truthy then a else b

/-- The operator `!!a`. -/
def notNot (a : JsVal) : JsVal := bool a.truthy

end JsVal

open JsVal

/-- First binding of `name` in a property list, `undefined` when there is none. -/
def lookupProp (name : String) : List (String × JsVal) → JsVal
  | [] => undefined
  | (k, v) :: rest => if k = name then v else lookupProp name rest

/-- An `Error` object, seen through the one own property the handlers read. -/
def newError (message : String) : JsVal := obj [("message", str message)]

/-- Text of the TypeError V8 raises for `v.name` when `v` is `undefined` or `null`. -/
def readOfNullishMessage (v : JsVal) (name : String) : String :=
  "Cannot read properties of " ++ (if v matches undefined then "undefined" else "null") ++
    " (reading '" ++ name ++ "')"

/-- Property read `v.name` for the property names written in the source (none of them is an index,
`length`, or inherited from a prototype): it throws a TypeError on `undefined` and `null`, finds
own properties of objects, and is `undefined` on every other value. -/
def getProp (v : JsVal) (name : String) : Except JsVal JsVal :=
  match v with
  | undefined => .error (newError (readOfNullishMessage v name))
  | null => .error (newError (readOfNullishMessage v name))
  | obj props => .ok (lookupProp name props)
  | _ => .ok undefined

/-- Optional chaining `v?.name`: `undefined` on `undefined` and `null`, else as `v.name`. -/
def optGet (v : JsVal) (name : String) : JsVal :=
  match v with
  | obj props => lookupProp name props
  | _ => undefined

/-- Writes `name: value` in an object literal: a repeated key keeps its first position and takes
the later value. -/
def setProp (name : String) (value : JsVal) : List (String × JsVal) → List (String × JsVal)
  | [] => [(name, value)]
  | (k, v) :: rest => if k = name then (k, value) :: rest else (k, v) :: setProp name value rest

/-! ## Process configuration and the provider client -/

/-- The environment variables the server reads (`process.env`); `none` is an unset variable. -/
structure Env where
  PORT : Option String
  NODE_ENV : Option String
  MIDTRANS_SERVER_KEY : Option String
  MIDTRANS_CLIENT_KEY : Option String

/-- The value of `process.env.X`: a string, or `undefined` when unset. -/
def envVal : Option String → JsVal
  | some s => str s
  | none => undefined

/-- Modelled from the spec: the constructor `midtransClient.Snap` belongs to the vendor SDK and is
not in this repository; the client it builds keeps the options it was configured with
(`isProduction`, `serverKey`, `clientKey`) under `apiConfig`. -/
def newSnap (options : JsVal) : JsVal :=
  obj [("apiConfig", obj [("isProduction", optGet options "isProduction"),
                          ("serverKey", optGet options "serverKey"),
                          ("clientKey", optGet options "clientKey")])]

/-- The module-level client: `const snap = new midtransClient.Snap({ isProduction: false, ... })`
(lines 36-40). -/
def snap (env : Env) : JsVal :=
  newSnap (obj [("isProduction", bool false),
                ("serverKey", envVal env.MIDTRANS_SERVER_KEY),
                ("clientKey", envVal env.MIDTRANS_CLIENT_KEY)])

/-- The expression `snap.apiConfig?.isProduction`. -/
def snapIsProduction (client : JsVal) : Except JsVal JsVal := do
  let apiConfig ← getProp client "apiConfig"
  pure (optGet apiConfig "isProduction")

/-- The provider capability `snap.createTransaction`: given the payload, the promise either
resolves with a value (`.ok`) or rejects with a value (`.error`). -/
abbrev Provider := JsVal → Except JsVal JsVal

/-! ## Responses and runs -/

/-- A response: the status code and the value handed to `res.json`. -/
structure Response where
  status : Nat
  body : JsVal
  deriving DecidableEq

/-- How a handler ends: it sends a response, or an exception escapes it (for an `async` handler,
its promise rejects). -/
inductive Outcome where
  | sent (response : Response) : Outcome
  | escaped (error : JsVal) : Outcome
  deriving DecidableEq

/-- A run of a handler: the payloads given to `createTransaction`, in order, and the outcome. -/
structure Run where
  calls : List JsVal
  outcome : Outcome
  deriving DecidableEq

/-- The expression `error.ApiResponse || error.message || error` (lines 91, 95, 136, 140). -/
def errorDetail (error : JsVal) : Except JsVal JsVal := do
  let apiResponse ← getProp error "ApiResponse"
  if apiResponse.truthy then pure apiResponse
  else
    let message ← getProp error "message"
    if message.truthy then pure message else pure error

/-- The body of a failure response `{ success: false, message, details, isProduction }`. -/
def failureBody (message : String) (details isProduction : JsVal) : JsVal :=
  obj [("success", bool false), ("message", str message), ("details", details),
       ("isProduction", isProduction)]

/-- The `catch (error)` blocks of both provider routes (lines 90-98 and 135-143), which differ in
the message only: `console.error` evaluates the detail expression, then the 500 response is
built. -/
def catchBlock (client : JsVal) (message : String) (error : JsVal) : Except JsVal Response := do
  let _logged ← errorDetail error
  let details ← errorDetail error
  let isProduction ← snapIsProduction client
  pure { status := 500, body := failureBody message details isProduction }

/-- Runs a `try` block result through the `catch` block and closes the run. -/
def finish (client : JsVal) (message : String) (tried : List JsVal × Except JsVal Response) : Run :=
  match tried.2 with
  | .ok response => { calls := tried.1, outcome := .sent response }
  | .error error =>
    match catchBlock client message error with
    | .ok response => { calls := tried.1, outcome := .sent response }
    | .error thrown => { calls := tried.1, outcome := .escaped thrown }

/-! ## POST /get-snap-token -/

/-- Text of the TypeError V8 raises when `req.body` is `undefined` or `null` at the destructuring
of line 106. -/
def destructureMessage (body : JsVal) : String :=
  "Cannot destructure property 'transaction_details' of 'req.body' as it is " ++
    (if body matches undefined then "undefined" else "null") ++ "."

/-- The payload built at lines 112-121. -/
def parameter (transaction_details customer_details item_details : JsVal) : JsVal :=
  obj [("transaction_details", transaction_details),
       ("customer_details", customer_details.or
          (obj [("first_name", str "Customer"), ("email", str "customer@example.com"),
                ("phone", str "08123456789")])),
       ("item_details", item_details.or (arr [])),
       ("credit_card", obj [("secure", bool true)])]

/-- The part of the `try` block after the provider resolved with `transaction` (lines 127-133):
the log line reads `transaction.token`, then the 200 response is built. -/
def sessionResult (transaction : JsVal) : Except JsVal Response := do
  let _logged ← getProp transaction "token"
  let token ← getProp transaction "token"
  let redirect_url ← getProp transaction "redirect_url"
  pure { status := 200,
         body := obj [("success", bool true), ("token", token), ("redirect_url", redirect_url)] }

/-- The `try` block of `POST /get-snap-token` (lines 105-133) on `req.body`: the payloads given to
the provider, and the response or the thrown value.  Destructuring `undefined` or `null` throws;
on any other body it reads the three properties.  Log lines appear only through the property
reads they perform. -/
def getSnapTokenTry (provider : Provider) (body : JsVal) : List JsVal × Except JsVal Response :=
  if body.isNullish then ([], .error (newError (destructureMessage body)))
  else
    let transaction_details := optGet body "transaction_details"
    let customer_details := optGet body "customer_details"
    let item_details := optGet body "item_details"
    if !(optGet transaction_details "order_id").truthy
        || !(optGet transaction_details "gross_amount").truthy then
      ([], .error (newError "Missing required fields: order_id or gross_amount"))
    else
      let payload := parameter transaction_details customer_details item_details
      match provider payload with
      | .error error => ([payload], .error error)
      | .ok transaction => ([payload], sessionResult transaction)

/-- The handler of `POST /get-snap-token` (lines 102-144), i.e. `createSession`. -/
def getSnapToken (env : Env) (provider : Provider) (body : JsVal) : Run :=
  finish (snap env) "Midtrans request failed" (getSnapTokenTry provider body)

/-! ## GET /test-midtrans -/

/-- The synthetic payload of lines 61-77; `now` is the value of `Date.now()`. -/
def testData (now : Nat) : JsVal :=
  obj [("transaction_details",
          obj [("order_id", str ("TEST-" ++ toString now)), ("gross_amount", num 1000)]),
       ("customer_details",
          obj [("first_name", str "Tester"), ("email", str "tester@example.com"),
               ("phone", str "08123456789")]),
       ("item_details",
          arr [obj [("id", str "TEST-ITEM"), ("price", num 1000), ("quantity", num 1),
                    ("name", str "Test Product")]])]

/-- The success response of lines 83-88. -/
def testResult (env : Env) (transaction : JsVal) : Except JsVal Response := do
  let token ← getProp transaction "token"
  pure { status := 200,
         body := obj [("success", bool true), ("message", str "Midtrans connection successful"),
                      ("token", token),
                      ("environment", (envVal env.NODE_ENV).or (str "development"))] }

/-- The `try` block of `GET /test-midtrans` (lines 60-88). -/
def testMidtransTry (env : Env) (provider : Provider) (now : Nat) :
    List JsVal × Except JsVal Response :=
  let payload := testData now
  match provider payload with
  | .error error => ([payload], .error error)
  | .ok transaction => ([payload], testResult env transaction)

/-- The handler of `GET /test-midtrans` (lines 57-99), i.e. `checkConnectivity`. -/
def testMidtrans (env : Env) (provider : Provider) (now : Nat) : Run :=
  finish (snap env) "Midtrans test failed" (testMidtransTry env provider now)

/-! ## GET /check-env and the global error handler -/

/-- Functions and host objects (`express`, `cors`, `midtransClient`, `app`, `req`, `res`) carry
no property that the modelled expressions read; they appear as empty objects. -/
def hostObject : JsVal := obj []

/-- The literal `corsOptions` (lines 10-20). -/
def corsOptions : JsVal :=
  obj [("origin", arr [str "https://oleh2in-pos-v2.web.app", str "http://localhost:5000",
                       str "http://localhost:3000", str "http://127.0.0.1:5500"]),
       ("methods", arr [str "GET", str "POST", str "OPTIONS"]),
       ("allowedHeaders", arr [str "Content-Type", str "Authorization"]),
       ("credentials", bool true)]

/-- The bindings a route handler `(req, res) => ...` of `server.js` can see: its two parameters
and the seven module-level constants, in declaration order. -/
def handlerScope (env : Env) : List (String × JsVal) :=
  [("req", hostObject), ("res", hostObject),
   ("express", hostObject), ("cors", hostObject), ("midtransClient", hostObject),
   ("app", hostObject), ("port", (envVal env.PORT).or (num 3000)),
   ("corsOptions", corsOptions), ("snap", snap env)]

/-- Evaluates a free identifier: a name with no binding in scope raises a ReferenceError. -/
def resolveIdent (scope : List (String × JsVal)) (name : String) : Except JsVal JsVal :=
  match scope.lookup name with
  | some value => .ok value
  | none => .error (newError (name ++ " is not defined"))

/-- The expression `key?.substring(0, 15) + '...'` on an environment variable (keys are ASCII, so
code units and characters coincide). -/
def keyPreview : Option String → JsVal
  | some key => str (key.take 15 ++ "...")
  | none => str "undefined..."

/-- The handler of `GET /check-env` (lines 43-54): the properties of the object literal are
evaluated in source order, then the object is sent. -/
def checkEnvHandler (env : Env) : Except JsVal Response := do
  let message := str "Checking environment variables on Render server"
  let node_env := envVal env.NODE_ENV
  let isProd ← resolveIdent (handlerScope env) "isProd"
  let server_key_exists := (envVal env.MIDTRANS_SERVER_KEY).notNot
  let server_key_preview := keyPreview env.MIDTRANS_SERVER_KEY
  let client_key_exists := (envVal env.MIDTRANS_CLIENT_KEY).notNot
  let client_key_preview := keyPreview env.MIDTRANS_CLIENT_KEY
  let isProduction ← snapIsProduction (snap env)
  pure { status := 200,
         body := obj (setProp "isProduction" isProduction
                  [("message", message), ("node_env", node_env), ("isProduction", isProd),
                   ("server_key_exists", server_key_exists),
                   ("server_key_preview", server_key_preview),
                   ("client_key_exists", client_key_exists),
                   ("client_key_preview", client_key_preview)]) }

/-- The global error handler (lines 163-166): the log line evaluates `err.stack || err.message`,
then `{ success: false, error: err.message }` is sent with status 500. -/
def globalErrorHandler (err : JsVal) : Except JsVal Response := do
  let stack ← getProp err "stack"
  let _logged ← if stack.truthy then pure stack else getProp err "message"
  let message ← getProp err "message"
  pure { status := 500, body := obj [("success", bool false), ("error", message)] }

/-- Express dispatch of a synchronous route handler: an exception thrown by the handler is passed
to the error-handling middleware. -/
def dispatchSync (handler : Except JsVal Response) : Outcome :=
  match handler with
  | .ok response => .sent response
  | .error err =>
    match globalErrorHandler err with
    | .ok response => .sent response
    | .error thrown => .escaped thrown

/-- The route `GET /check-env` as served. -/
def checkEnv (env : Env) : Outcome := dispatchSync (checkEnvHandler env)

/-! ## Vocabulary of the properties -/

/-- The payload the handler of `POST /get-snap-token` builds from `req.body` (lines 106 and
112-121). -/
def payloadOf (body : JsVal) : JsVal :=
  parameter (optGet body "transaction_details") (optGet body "customer_details")
    (optGet body "item_details")

/-- Both required fields are truthy: the negation of the guard of line 108. -/
def requiredPresent (body : JsVal) : Bool :=
  (optGet (optGet body "transaction_details") "order_id").truthy
    && (optGet (optGet body "transaction_details") "gross_amount").truthy

/-- The default customer of lines 114-118. -/
def defaultCustomer : JsVal :=
  obj [("first_name", str "Customer"), ("email", str "customer@example.com"),
       ("phone", str "08123456789")]

/-- The detail of an error, in words: the structured detail `ApiResponse` if truthy, else the
`message` if truthy, else the error value itself. -/
def detailOf (error : JsVal) : JsVal :=
  if (optGet error "ApiResponse").truthy then optGet error "ApiResponse"
  else if (optGet error "message").truthy then optGet error "message"
  else error

/-- The validation failure response of `POST /get-snap-token`. -/
def validationFailure : Response :=
  { status := 500,
    body := failureBody "Midtrans request failed"
              (str "Missing required fields: order_id or gross_amount") (bool false) }

/-! ## Sample inputs -/

/-- A sandbox configuration with both keys set. -/
def sampleEnv : Env :=
  { PORT := none, NODE_ENV := none,
    MIDTRANS_SERVER_KEY := some "SB-Mid-server-0123456789abcdef",
    MIDTRANS_CLIENT_KEY := some "SB-Mid-client-0123456789abcdef" }

/-- The request `{transaction_details: {order_id: "ORD-1", gross_amount: 50000}}`. -/
def orderBody : JsVal :=
  obj [("transaction_details", obj [("order_id", str "ORD-1"), ("gross_amount", num 50000)])]

/-- A provider stub resolving with `{token: "T1", redirect_url: "U1"}`. -/
def stubProvider : Provider :=
  fun _ => .ok (obj [("token", str "T1"), ("redirect_url", str "U1")])

/-- A provider stub resolving with `value`. -/
def resolving (value : JsVal) : Provider := fun _ => .ok value

/-- A provider stub rejecting with `error`. -/
def rejecting (error : JsVal) : Provider := fun _ => .error error

/-- A valid request that also supplies `customer_details: null` and `item_details: 0`. -/
def falsyDetailsBody : JsVal :=
  obj [("transaction_details", obj [("order_id", str "ORD-1"), ("gross_amount", num 50000)]),
       ("customer_details", null), ("item_details", num 0)]

/-- A valid request supplying a customer, items, a `credit_card` of its own and a stray field. -/
def fullBody : JsVal :=
  obj [("transaction_details", obj [("order_id", str "ORD-2"), ("gross_amount", num 75000)]),
       ("customer_details", obj [("first_name", str "Ani")]),
       ("item_details", arr []),
       ("credit_card", obj [("secure", bool false)]),
       ("callbacks", obj [("finish", str "https://example.com")])]

/-- A request with a negative amount. -/
def negativeBody : JsVal :=
  obj [("transaction_details", obj [("order_id", str "ORD-3"), ("gross_amount", num (-5))])]

/-- An error value with neither `ApiResponse` nor `message`. -/
def bareError : JsVal := obj [("code", str "ECONNRESET")]

/-! ## Lemmas on the building blocks -/

theorem getProp_eq_optGet (v : JsVal) (name : String) (h : v.isNullish = false) :
    getProp v name = .ok (optGet v name) := by
  cases v <;> simp_all [getProp, optGet, isNullish]

theorem getProp_ok (v w : JsVal) (name : String) (h : getProp v name = .ok w) :
    v.isNullish = false ∧ optGet v name = w := by
  cases v <;> simp_all [getProp, optGet, isNullish]

theorem snapIsProduction_snap (env : Env) : snapIsProduction (snap env) = .ok (bool false) := rfl

theorem errorDetail_eq (error : JsVal) (h : error.isNullish = false) :
    errorDetail error = .ok (detailOf error) := by
  unfold errorDetail detailOf
  rw [getProp_eq_optGet error "ApiResponse" h, getProp_eq_optGet error "message" h]
  by_cases h1 : (optGet error "ApiResponse").truthy = true
  · simp [h1, bind, Except.bind, pure, Except.pure]
  · by_cases h2 : (optGet error "message").truthy = true
    · simp [h1, h2, bind, Except.bind, pure, Except.pure]
    · simp [h1, h2, bind, Except.bind, pure, Except.pure]

theorem catchBlock_eq (env : Env) (message : String) (error : JsVal)
    (h : error.isNullish = false) :
    catchBlock (snap env) message error
      = .ok { status := 500, body := failureBody message (detailOf error) (bool false) } := by
  unfold catchBlock
  rw [errorDetail_eq error h, snapIsProduction_snap]
  rfl

theorem catchBlock_nullish (client : JsVal) (message : String) (error : JsVal)
    (h : error.isNullish = true) :
    catchBlock client message error
      = .error (newError (readOfNullishMessage error "ApiResponse")) := by
  cases error <;> simp_all [isNullish] <;> rfl

theorem getSnapTokenTry_invalid (provider : Provider) (body : JsVal)
    (hbody : body.isNullish = false) (h : requiredPresent body = false) :
    getSnapTokenTry provider body
      = ([], .error (newError "Missing required fields: order_id or gross_amount")) := by
  unfold getSnapTokenTry
  unfold requiredPresent at h
  simp only [hbody, Bool.false_eq_true, if_false]
  cases h1 : (optGet (optGet body "transaction_details") "order_id").truthy <;>
    cases h2 : (optGet (optGet body "transaction_details") "gross_amount").truthy <;>
    simp_all

theorem requiredPresent_not_nullish (body : JsVal) (h : requiredPresent body = true) :
    body.isNullish = false := by
  cases body <;> simp_all [requiredPresent, optGet, isNullish, truthy]

theorem getSnapTokenTry_valid (provider : Provider) (body : JsVal)
    (h : requiredPresent body = true) :
    getSnapTokenTry provider body
      = match provider (payloadOf body) with
        | .error error => ([payloadOf body], .error error)
        | .ok transaction => ([payloadOf body], sessionResult transaction) := by
  have hbody := requiredPresent_not_nullish body h
  unfold getSnapTokenTry
  unfold requiredPresent at h
  simp only [Bool.and_eq_true] at h
  simp only [hbody, Bool.false_eq_true, if_false, h.1, h.2]
  rfl

theorem getSnapToken_invalid (env : Env) (provider : Provider) (body : JsVal)
    (hbody : body.isNullish = false) (h : requiredPresent body = false) :
    getSnapToken env provider body = { calls := [], outcome := .sent validationFailure } := by
  unfold getSnapToken
  rw [getSnapTokenTry_invalid provider body hbody h]
  rfl

theorem getSnapToken_rejected (env : Env) (provider : Provider) (body error : JsVal)
    (h : requiredPresent body = true) (hp : provider (payloadOf body) = .error error)
    (he : error.isNullish = false) :
    getSnapToken env provider body
      = { calls := [payloadOf body],
          outcome := .sent { status := 500,
                             body := failureBody "Midtrans request failed" (detailOf error)
                                       (bool false) } } := by
  unfold getSnapToken
  rw [getSnapTokenTry_valid provider body h, hp]
  simp only [finish]
  rw [catchBlock_eq env _ error he]

theorem getSnapToken_calls (env : Env) (provider : Provider) (body : JsVal) :
    (getSnapToken env provider body).calls
      = if requiredPresent body then [payloadOf body] else [] := by
  have hcalls : ∀ client message tried, (finish client message tried).calls = tried.1 := by
    intro client message tried
    unfold finish
    split
    · rfl
    · split <;> rfl
  unfold getSnapToken
  rw [hcalls]
  by_cases h : requiredPresent body = true
  · rw [getSnapTokenTry_valid provider body h]
    simp only [h, if_true]
    split <;> rfl
  · have hfalse : requiredPresent body = false := by simpa using h
    simp only [hfalse, Bool.false_eq_true, if_false]
    by_cases hbody : body.isNullish = true
    · simp [getSnapTokenTry, hbody]
    · have hb : body.isNullish = false := by simpa using hbody
      rw [getSnapTokenTry_invalid provider body hb hfalse]

/-! ## The claims -/

/-- C1, counterexample: a request whose body is `undefined` has no `transaction_details`, makes
no provider call and is answered HTTP 500 with `success: false`, but `details` is the text of the
TypeError thrown by the destructuring of line 106, not the validation message. -/
theorem getSnapToken_undefined_body_details :
    optGet undefined "transaction_details" = undefined
      ∧ getSnapToken sampleEnv stubProvider undefined
          = { calls := [],
              outcome := .sent
                { status := 500,
                  body := obj [("success", bool false),
                               ("message", str "Midtrans request failed"),
                               ("details",
                                  str ("Cannot destructure property 'transaction_details' of "
                                    ++ "'req.body' as it is undefined.")),
                               ("isProduction", bool false)] } } :=
  ⟨rfl, rfl⟩

/-- C1, amended: a request body whose `transaction_details` is absent, or whose `order_id` is
missing or empty, or whose `gross_amount` is missing, makes `POST /get-snap-token` call the
provider zero times and answer HTTP 500 with `success: false`; `details` is
`'Missing required fields: order_id or gross_amount'` whenever the body is not itself `undefined`
or `null`. -/
theorem getSnapToken_rejects_missing_fields (env : Env) (provider : Provider) (body : JsVal)
    (hmissing : optGet body "transaction_details" = undefined
      ∨ optGet (optGet body "transaction_details") "order_id" = undefined
      ∨ optGet (optGet body "transaction_details") "order_id" = str ""
      ∨ optGet (optGet body "transaction_details") "gross_amount" = undefined) :
    ∃ details,
      getSnapToken env provider body
          = { calls := [],
              outcome := .sent
                { status := 500,
                  body := obj [("success", bool false),
                               ("message", str "Midtrans request failed"),
                               ("details", details), ("isProduction", bool false)] } }
        ∧ (body.isNullish = false →
            details = str "Missing required fields: order_id or gross_amount") := by
  have hreq : requiredPresent body = false := by
    unfold requiredPresent
    rcases hmissing with h | h | h | h
    · rw [h]; rfl
    · rw [h]; rfl
    · rw [h]; rfl
    · rw [h]; simp [truthy]
  by_cases hbody : body.isNullish = true
  · cases body <;> simp [isNullish] at hbody
    · exact ⟨_, rfl, fun h => by simp [isNullish] at h⟩
    · exact ⟨_, rfl, fun h => by simp [isNullish] at h⟩
  · have hnn : body.isNullish = false := by simpa using hbody
    exact ⟨_, getSnapToken_invalid env provider body hnn hreq, fun _ => rfl⟩

/-- Witness of C1 amended: the empty request `{}` is rejected without a provider call, with the
validation message as `details`. -/
theorem getSnapToken_rejects_empty_request :
    getSnapToken sampleEnv stubProvider (obj [])
      = { calls := [],
          outcome := .sent
            { status := 500,
              body := obj [("success", bool false), ("message", str "Midtrans request failed"),
                           ("details", str "Missing required fields: order_id or gross_amount"),
                           ("isProduction", bool false)] } } := by
  obtain ⟨details, hrun, hdetails⟩ :=
    getSnapToken_rejects_missing_fields sampleEnv stubProvider (obj []) (Or.inl rfl)
  rw [hdetails rfl] at hrun
  exact hrun

/-- C2: for a request with a non-empty `order_id`, a positive `gross_amount` and no
`customer_details` and no `item_details`, the one payload given to the provider carries the
supplied `transaction_details`, the default customer, the empty item list and the card option. -/
theorem getSnapToken_defaults_omitted (env : Env) (provider : Provider)
    (body transaction_details : JsVal) (order_id : String) (gross_amount : Int)
    (hbody : getProp body "transaction_details" = .ok transaction_details)
    (hid : optGet transaction_details "order_id" = str order_id) (hne : order_id ≠ "")
    (hamount : optGet transaction_details "gross_amount" = num gross_amount)
    (hpos : 0 < gross_amount)
    (hcustomer : getProp body "customer_details" = .ok undefined)
    (hitems : getProp body "item_details" = .ok undefined) :
    (getSnapToken env provider body).calls
      = [obj [("transaction_details", transaction_details),
              ("customer_details",
                 obj [("first_name", str "Customer"), ("email", str "customer@example.com"),
                      ("phone", str "08123456789")]),
              ("item_details", arr []),
              ("credit_card", obj [("secure", bool true)])]] := by
  obtain ⟨_, htd⟩ := getProp_ok body transaction_details _ hbody
  obtain ⟨_, hc⟩ := getProp_ok body undefined _ hcustomer
  obtain ⟨_, hi⟩ := getProp_ok body undefined _ hitems
  have hreq : requiredPresent body = true := by
    unfold requiredPresent
    rw [htd, hid, hamount]
    have h0 : gross_amount ≠ 0 := by omega
    simp [truthy, hne, h0]
  rw [getSnapToken_calls, hreq]
  simp only [if_true, payloadOf, htd, hc, hi]
  rfl

/-- Witness of C2: the request `{transaction_details: {order_id: "ORD-1", gross_amount: 50000}}`
reaches the provider with the default customer and the empty item list. -/
theorem getSnapToken_defaults_order :
    (getSnapToken sampleEnv stubProvider orderBody).calls
      = [obj [("transaction_details",
                 obj [("order_id", str "ORD-1"), ("gross_amount", num 50000)]),
              ("customer_details",
                 obj [("first_name", str "Customer"), ("email", str "customer@example.com"),
                      ("phone", str "08123456789")]),
              ("item_details", arr []),
              ("credit_card", obj [("secure", bool true)])]] :=
  getSnapToken_defaults_omitted sampleEnv stubProvider orderBody
    (obj [("order_id", str "ORD-1"), ("gross_amount", num 50000)]) "ORD-1" 50000
    rfl rfl (by decide) rfl (by decide) rfl rfl

/-- C3, counterexample: a valid request supplying `customer_details: null` and `item_details: 0`
reaches the provider with the default customer and the empty list in their place. -/
theorem getSnapToken_replaces_falsy_details :
    getProp falsyDetailsBody "customer_details" = .ok null
      ∧ getProp falsyDetailsBody "item_details" = .ok (num 0)
      ∧ (getSnapToken sampleEnv stubProvider falsyDetailsBody).calls
          = [obj [("transaction_details",
                     obj [("order_id", str "ORD-1"), ("gross_amount", num 50000)]),
                  ("customer_details",
                     obj [("first_name", str "Customer"), ("email", str "customer@example.com"),
                          ("phone", str "08123456789")]),
                  ("item_details", arr []),
                  ("credit_card", obj [("secure", bool true)])]] :=
  ⟨rfl, rfl, rfl⟩

/-- C3, amended: for a valid request the payload carries the supplied `customer_details`
(respectively `item_details`) unchanged whenever the supplied value is truthy, which every object
and every array is; the default customer (respectively the empty list) stands in exactly when
the field is absent or holds a falsy value. -/
theorem getSnapToken_keeps_truthy_details (env : Env) (provider : Provider) (body : JsVal)
    (hvalid : requiredPresent body = true) :
    ∃ payload, (getSnapToken env provider body).calls = [payload]
      ∧ optGet payload "customer_details"
          = (if (optGet body "customer_details").truthy then optGet body "customer_details"
             else obj [("first_name", str "Customer"), ("email", str "customer@example.com"),
                       ("phone", str "08123456789")])
      ∧ optGet payload "item_details"
          = (if (optGet body "item_details").truthy then optGet body "item_details"
             else arr [])
      ∧ (∀ props, optGet body "customer_details" = obj props
            → optGet payload "customer_details" = obj props)
      ∧ (∀ items, optGet body "item_details" = arr items
            → optGet payload "item_details" = arr items) := by
  refine ⟨payloadOf body, ?_, rfl, rfl, ?_, ?_⟩
  · rw [getSnapToken_calls, hvalid]; rfl
  · intro props h
    show (optGet body "customer_details").or _ = _
    rw [h]; rfl
  · intro items h
    show (optGet body "item_details").or _ = _
    rw [h]; rfl

/-- Witness of C3 amended: a supplied customer with one field and a supplied empty item list
are submitted as they are. -/
theorem getSnapToken_keeps_supplied_details :
    ∃ payload, (getSnapToken sampleEnv stubProvider fullBody).calls = [payload]
      ∧ optGet payload "customer_details"
          = (if (optGet fullBody "customer_details").truthy
             then optGet fullBody "customer_details"
             else obj [("first_name", str "Customer"), ("email", str "customer@example.com"),
                       ("phone", str "08123456789")])
      ∧ optGet payload "item_details"
          = (if (optGet fullBody "item_details").truthy then optGet fullBody "item_details"
             else arr [])
      ∧ (∀ props, optGet fullBody "customer_details" = obj props
            → optGet payload "customer_details" = obj props)
      ∧ (∀ items, optGet fullBody "item_details" = arr items
            → optGet payload "item_details" = arr items) :=
  getSnapToken_keeps_truthy_details sampleEnv stubProvider fullBody rfl

/-- C4, counterexample: when the provider rejects with `null`, the `catch` block itself throws
while reading `error.ApiResponse`; no response is sent and the exception leaves the handler. -/
theorem getSnapToken_escapes_on_null_error :
    rejecting null (payloadOf orderBody) = .error null
      ∧ getSnapToken sampleEnv (rejecting null) orderBody
          = { calls := [payloadOf orderBody],
              outcome := .escaped
                (newError "Cannot read properties of null (reading 'ApiResponse')") } :=
  ⟨rfl, rfl⟩

/-- C4, amended: when the provider rejects with any value other than `null` and `undefined`, the
handler of `POST /get-snap-token` does not throw: it sends HTTP 500 with `success: false`,
`message`, `details` and `isProduction`. -/
theorem getSnapToken_catches_provider_error (env : Env) (provider : Provider)
    (body error : JsVal) (hvalid : requiredPresent body = true)
    (hrejects : provider (payloadOf body) = .error error) (herror : error.isNullish = false) :
    ∃ details isProduction,
      (getSnapToken env provider body).outcome
        = .sent { status := 500,
                  body := obj [("success", bool false),
                               ("message", str "Midtrans request failed"),
                               ("details", details), ("isProduction", isProduction)] } := by
  refine ⟨detailOf error, bool false, ?_⟩
  rw [getSnapToken_rejected env provider body error hvalid hrejects herror]
  rfl

/-- Witness of C4 amended: a provider rejecting with the string `"timeout"` gets a 500 answer. -/
theorem getSnapToken_catches_thrown_string :
    ∃ details isProduction,
      (getSnapToken sampleEnv (rejecting (str "timeout")) orderBody).outcome
        = .sent { status := 500,
                  body := obj [("success", bool false),
                               ("message", str "Midtrans request failed"),
                               ("details", details), ("isProduction", isProduction)] } :=
  getSnapToken_catches_provider_error sampleEnv (rejecting (str "timeout")) orderBody
    (str "timeout") rfl rfl rfl

/-- C5, counterexample: when the provider resolves with `null`, reading `transaction.token`
throws inside the `try` block and the valid request is answered with HTTP 500. -/
theorem getSnapToken_fails_on_null_response :
    resolving null (payloadOf orderBody) = .ok null
      ∧ requiredPresent orderBody = true
      ∧ (getSnapToken sampleEnv (resolving null) orderBody).outcome
          = .sent { status := 500,
                    body := obj [("success", bool false),
                                 ("message", str "Midtrans request failed"),
                                 ("details",
                                    str "Cannot read properties of null (reading 'token')"),
                                 ("isProduction", bool false)] } :=
  ⟨rfl, rfl, rfl⟩

/-- C5, amended: for a valid request and a provider response `r` other than `null` and
`undefined`, the handler answers HTTP 200 with `success: true`, `token: r.token` and
`redirect_url: r.redirect_url`, after exactly one provider call. -/
theorem getSnapToken_returns_session (env : Env) (provider : Provider) (body r : JsVal)
    (hvalid : requiredPresent body = true)
    (hresolves : provider (payloadOf body) = .ok r) (hr : r.isNullish = false) :
    getSnapToken env provider body
      = { calls := [payloadOf body],
          outcome := .sent
            { status := 200,
              body := obj [("success", bool true), ("token", optGet r "token"),
                           ("redirect_url", optGet r "redirect_url")] } } := by
  unfold getSnapToken
  rw [getSnapTokenTry_valid provider body hvalid, hresolves]
  simp only [sessionResult, getProp_eq_optGet r _ hr]
  rfl

/-- Witness of C5 amended: the stub returning `{token: "T1", redirect_url: "U1"}` yields token
`"T1"` and redirect URL `"U1"`. -/
theorem getSnapToken_round_trip :
    getSnapToken sampleEnv stubProvider orderBody
      = { calls := [payloadOf orderBody],
          outcome := .sent
            { status := 200,
              body := obj [("success", bool true), ("token", str "T1"),
                           ("redirect_url", str "U1")] } } :=
  getSnapToken_returns_session sampleEnv stubProvider orderBody
    (obj [("token", str "T1"), ("redirect_url", str "U1")]) rfl rfl rfl

/-- C6, counterexample: for an error with neither `ApiResponse` nor `message`, `details` is the
error value itself, not its (undefined) message. -/
theorem getSnapToken_details_bare_error :
    getProp bareError "ApiResponse" = .ok undefined
      ∧ getProp bareError "message" = .ok undefined
      ∧ (getSnapToken sampleEnv (rejecting bareError) orderBody).outcome
          = .sent { status := 500,
                    body := obj [("success", bool false),
                                 ("message", str "Midtrans request failed"),
                                 ("details", obj [("code", str "ECONNRESET")]),
                                 ("isProduction", bool false)] } :=
  ⟨rfl, rfl, rfl⟩

/-- C6, amended: for every error `e` other than `null` and `undefined` raised by the provider,
`details` is `e.ApiResponse` when that is truthy, otherwise `e.message` when that is truthy,
otherwise `e` itself, and `isProduction` is the configured flag `false`. -/
theorem getSnapToken_failure_details (env : Env) (provider : Provider) (body e : JsVal)
    (hvalid : requiredPresent body = true)
    (hrejects : provider (payloadOf body) = .error e) (he : e.isNullish = false) :
    (getSnapToken env provider body).outcome
      = .sent { status := 500,
                body := obj [("success", bool false),
                             ("message", str "Midtrans request failed"),
                             ("details",
                                if (optGet e "ApiResponse").truthy then optGet e "ApiResponse"
                                else if (optGet e "message").truthy then optGet e "message"
                                else e),
                             ("isProduction", bool false)] } := by
  rw [getSnapToken_rejected env provider body e hvalid hrejects he]
  rfl

/-- Witness of C6 amended: a provider throwing `{message: "invalid signature"}` yields
`details: "invalid signature"` and `isProduction: false`. -/
theorem getSnapToken_details_invalid_signature :
    (getSnapToken sampleEnv (rejecting (obj [("message", str "invalid signature")]))
        orderBody).outcome
      = .sent { status := 500,
                body := obj [("success", bool false),
                             ("message", str "Midtrans request failed"),
                             ("details", str "invalid signature"),
                             ("isProduction", bool false)] } :=
  getSnapToken_failure_details sampleEnv (rejecting (obj [("message", str "invalid signature")]))
    orderBody (obj [("message", str "invalid signature")]) rfl rfl rfl

/-- C7: for every valid request, whatever else the body carries, the payload given to the
provider consists of exactly the four fields `transaction_details`, `customer_details`,
`item_details` and `credit_card`, the last being `{secure: true}`. -/
theorem getSnapToken_payload_shape (env : Env) (provider : Provider) (body : JsVal)
    (hvalid : requiredPresent body = true) :
    ∃ transaction_details customer_details item_details,
      (getSnapToken env provider body).calls
        = [obj [("transaction_details", transaction_details),
                ("customer_details", customer_details),
                ("item_details", item_details),
                ("credit_card", obj [("secure", bool true)])]] := by
  refine ⟨optGet body "transaction_details", (optGet body "customer_details").or defaultCustomer,
    (optGet body "item_details").or (arr []), ?_⟩
  rw [getSnapToken_calls, hvalid]
  rfl

/-- Witness of C7: a request carrying its own `credit_card: {secure: false}` and a stray field
is submitted with `credit_card: {secure: true}` and no fifth field. -/
theorem getSnapToken_payload_shape_full :
    ∃ transaction_details customer_details item_details,
      (getSnapToken sampleEnv stubProvider fullBody).calls
        = [obj [("transaction_details", transaction_details),
                ("customer_details", customer_details),
                ("item_details", item_details),
                ("credit_card", obj [("secure", bool true)])]] :=
  getSnapToken_payload_shape sampleEnv stubProvider fullBody rfl

/-- C8, counterexample: on the stub response `{token: "T1", redirect_url: "U1"}` the success
result of `GET /test-midtrans` carries the token but no `redirect_url`. -/
theorem testMidtrans_omits_redirect_url :
    stubProvider (testData 1700000000000)
        = .ok (obj [("token", str "T1"), ("redirect_url", str "U1")])
      ∧ (testMidtrans sampleEnv stubProvider 1700000000000).outcome
          = .sent { status := 200,
                    body := obj [("success", bool true),
                                 ("message", str "Midtrans connection successful"),
                                 ("token", str "T1"),
                                 ("environment", str "development")] } :=
  ⟨rfl, rfl⟩

/-- C8, amended: `GET /test-midtrans` calls the provider once with its synthetic payload; for a
provider response `r` other than `null` and `undefined` the success result carries `r.token`
unchanged together with a message and the environment name, and no `redirect_url`; for a
provider error `e` other than `null` and `undefined` the failure result carries the same
`details` and `isProduction` as the failure result of `POST /get-snap-token` for `e`. -/
theorem testMidtrans_contract (env : Env) (now : Nat) :
    (∀ (provider : Provider) (r : JsVal),
        provider (testData now) = .ok r → r.isNullish = false →
        testMidtrans env provider now
          = { calls := [testData now],
              outcome := .sent
                { status := 200,
                  body := obj [("success", bool true),
                               ("message", str "Midtrans connection successful"),
                               ("token", optGet r "token"),
                               ("environment",
                                  (envVal env.NODE_ENV).or (str "development"))] } })
    ∧ (∀ (provider sessionProvider : Provider) (body e : JsVal),
        requiredPresent body = true →
        provider (testData now) = .error e →
        sessionProvider (payloadOf body) = .error e →
        e.isNullish = false →
        ∃ details isProduction,
          testMidtrans env provider now
            = { calls := [testData now],
                outcome := .sent
                  { status := 500,
                    body := obj [("success", bool false),
                                 ("message", str "Midtrans test failed"),
                                 ("details", details), ("isProduction", isProduction)] } }
          ∧ (getSnapToken env sessionProvider body).outcome
              = .sent
                  { status := 500,
                    body := obj [("success", bool false),
                                 ("message", str "Midtrans request failed"),
                                 ("details", details), ("isProduction", isProduction)] }) := by
  constructor
  · intro provider r hresolves hr
    unfold testMidtrans testMidtransTry
    simp only [hresolves, testResult, getProp_eq_optGet r _ hr]
    rfl
  · intro provider sessionProvider body e hvalid hrejects hsession he
    refine ⟨detailOf e, bool false, ?_, ?_⟩
    · unfold testMidtrans testMidtransTry
      simp only [hrejects, finish]
      rw [catchBlock_eq env _ e he]
      rfl
    · rw [getSnapToken_rejected env sessionProvider body e hvalid hsession he]
      rfl

/-- Witness of C8 amended: the stub response gives token `"T1"`, and the error
`{message: "invalid signature"}` gives the same details on both routes. -/
theorem testMidtrans_contract_stub :
    testMidtrans sampleEnv stubProvider 1700000000000
        = { calls := [testData 1700000000000],
            outcome := .sent
              { status := 200,
                body := obj [("success", bool true),
                             ("message", str "Midtrans connection successful"),
                             ("token",
                                optGet (obj [("token", str "T1"), ("redirect_url", str "U1")])
                                  "token"),
                             ("environment",
                                (envVal sampleEnv.NODE_ENV).or (str "development"))] } }
      ∧ ∃ details isProduction,
          testMidtrans sampleEnv (rejecting (obj [("message", str "invalid signature")]))
              1700000000000
            = { calls := [testData 1700000000000],
                outcome := .sent
                  { status := 500,
                    body := obj [("success", bool false),
                                 ("message", str "Midtrans test failed"),
                                 ("details", details), ("isProduction", isProduction)] } }
          ∧ (getSnapToken sampleEnv (rejecting (obj [("message", str "invalid signature")]))
                orderBody).outcome
              = .sent
                  { status := 500,
                    body := obj [("success", bool false),
                                 ("message", str "Midtrans request failed"),
                                 ("details", details), ("isProduction", isProduction)] } :=
  ⟨(testMidtrans_contract sampleEnv 1700000000000).1 stubProvider
      (obj [("token", str "T1"), ("redirect_url", str "U1")]) rfl rfl,
   (testMidtrans_contract sampleEnv 1700000000000).2
      (rejecting (obj [("message", str "invalid signature")]))
      (rejecting (obj [("message", str "invalid signature")]))
      orderBody (obj [("message", str "invalid signature")]) rfl rfl rfl rfl⟩

/-- C9, the code at any configuration: evaluating the response object of `GET /check-env` raises
`ReferenceError: isProd is not defined` before any key is inspected, so the route is answered by
the global error handler with HTTP 500 and no key information. -/
theorem checkEnv_reference_error (env : Env) :
    checkEnv env
      = .sent { status := 500,
                body := obj [("success", bool false),
                             ("error", str "isProd is not defined")] } := by
  rfl

/-- C10: the handler of `POST /get-snap-token` calls the provider exactly once, with the payload
built from the body, when `order_id` and `gross_amount` are both truthy, and never otherwise,
whatever the provider then does; a `gross_amount` of `0` or an `order_id` of `""` is rejected,
and a negative or a non-empty string `gross_amount` is forwarded unchanged. -/
theorem getSnapToken_call_count (env : Env) (provider : Provider) (body : JsVal) :
    (getSnapToken env provider body).calls
        = (if requiredPresent body then [payloadOf body] else [])
      ∧ (getSnapToken env provider body).calls.length
          = (if requiredPresent body then 1 else 0)
      ∧ (getSnapToken env provider body).calls.length ≤ 1
      ∧ (optGet (optGet body "transaction_details") "gross_amount" = num 0 →
          (getSnapToken env provider body).calls = [])
      ∧ (optGet (optGet body "transaction_details") "order_id" = str "" →
          (getSnapToken env provider body).calls = [])
      ∧ (∀ (order_id : String) (gross_amount : Int),
          optGet (optGet body "transaction_details") "order_id" = str order_id →
          order_id ≠ "" →
          optGet (optGet body "transaction_details") "gross_amount" = num gross_amount →
          gross_amount < 0 →
          (getSnapToken env provider body).calls = [payloadOf body]
            ∧ optGet (payloadOf body) "transaction_details"
                = optGet body "transaction_details")
      ∧ (∀ (order_id gross_amount : String),
          optGet (optGet body "transaction_details") "order_id" = str order_id →
          order_id ≠ "" →
          optGet (optGet body "transaction_details") "gross_amount" = str gross_amount →
          gross_amount ≠ "" →
          (getSnapToken env provider body).calls = [payloadOf body]
            ∧ optGet (payloadOf body) "transaction_details"
                = optGet body "transaction_details") := by
  have hcalls := getSnapToken_calls env provider body
  refine ⟨hcalls, ?_, ?_, ?_, ?_, ?_, ?_⟩
  · rw [hcalls]; split <;> rfl
  · rw [hcalls]; split <;> simp
  · intro h
    have hreq : requiredPresent body = false := by
      unfold requiredPresent; rw [h]; simp [truthy]
    rw [hcalls, hreq]; rfl
  · intro h
    have hreq : requiredPresent body = false := by
      unfold requiredPresent; rw [h]; simp [truthy]
    rw [hcalls, hreq]; rfl
  · intro order_id gross_amount hid hne hamount hneg
    have hreq : requiredPresent body = true := by
      unfold requiredPresent; rw [hid, hamount]
      have h0 : gross_amount ≠ 0 := by omega
      simp [truthy, hne, h0]
    rw [hcalls, hreq]
    exact ⟨rfl, rfl⟩
  · intro order_id gross_amount hid hne hamount hne2
    have hreq : requiredPresent body = true := by
      unfold requiredPresent; rw [hid, hamount]
      simp [truthy, hne, hne2]
    rw [hcalls, hreq]
    exact ⟨rfl, rfl⟩

/-- Witness of C10: a request with `gross_amount: -5` is forwarded, once, to a provider that
rejects it. -/
theorem getSnapToken_forwards_negative_amount :
    (getSnapToken sampleEnv (rejecting (str "rejected")) negativeBody).calls
        = [payloadOf negativeBody]
      ∧ optGet (payloadOf negativeBody) "transaction_details"
          = optGet negativeBody "transaction_details" :=
  (getSnapToken_call_count sampleEnv (rejecting (str "rejected")) negativeBody).2.2.2.2.2.1
    "ORD-3" (-5) rfl (by decide) rfl (by decide)

end Server
